import Mathlib

/-!
Shallow embedding of src/streamlit_app.py, the single source file of the
two-tones repository: an umbrella-decision game built on weighted categorical
sampling.  Python float weight literals (0.6, 0.3, ...) are modelled as exact
rationals; every claim settled here depends only on comparisons and finite
sums of these small literals, where binary-float rounding cannot change any
compared order.  Python dicts keyed by the entity classes are modelled as
association lists whose lookups use the classes own description-based
equality (lines 61-62, 77-78, 103-104 of the source).  Session-state mutation
performed by the Streamlit handlers is modelled by explicit state passing;
randomness (random.random drawn inside random.choices) is an explicit
rational parameter.
-/

-- Rational arithmetic is irreducible by default; restore reducibility in
-- this file so that concrete runs of the embedded program evaluate.
attribute [local semireducible] Rat.ofScientific Rat.add Rat.mul Rat.sub Rat.inv

namespace TwoTones

/-- Errors that CPython raises inside the code paths embedded here.
`indexError` models the IndexError from `cum_weights[-1]` on an empty
population inside random.choices, `valueError` the
ValueError raised by random.choices when the total of weights
is not greater than zero, and `attributeError` the AttributeError raised by
Streamlit session state on an attribute lookup for a key that was never
stored.  Note that the source declares no error type of its own: it has no
EmptyDistribution, InvalidWorldDefinition, InvalidAction, NoOutcomeDefined or
InvalidStateTransition. -/
inductive PyError where
  | indexError
  | valueError
  | attributeError
deriving DecidableEq, Repr

instance {ε α : Type} [DecidableEq ε] [DecidableEq α] :
    DecidableEq (Except ε α) := fun a b =>
  match a, b with
  | .error e, .error f =>
    if h : e = f then isTrue (by rw [h]) else isFalse (by simp [h])
  | .ok x, .ok y =>
    if h : x = y then isTrue (by rw [h]) else isFalse (by simp [h])
  | .error _, .ok _ => isFalse (by simp)
  | .ok _, .error _ => isFalse (by simp)

/-- itertools.accumulate over the weights, as used by random.choices:
cum[i] = w0 + ... + wi. -/
def cumsum (l : List ℚ) : List ℚ :=
  (l.scanl (fun a b => a + b) 0).tail

/-- bisect.bisect_right as a fueled binary search, replicating the CPython
loop: while lo < hi: mid = (lo+hi)//2; if x < a[mid] then hi = mid else
lo = mid+1; return lo.  Each iteration strictly shrinks hi - lo, so fuel
hi - lo + 1 always suffices; out-of-range reads are modelled by getD 0 but
never occur for the in-range lo/hi the callers pass. -/
def bisectRightAux (a : List ℚ) (x : ℚ) : Nat → Nat → Nat → Nat
  | 0, lo, _ => lo
  | fuel + 1, lo, hi =>
    if lo < hi then
      if x < a.getD ((lo + hi) / 2) 0 then
        bisectRightAux a x fuel lo ((lo + hi) / 2)
      else
        bisectRightAux a x fuel ((lo + hi) / 2 + 1) hi
    else lo

/-- bisect.bisect(cum_weights, x, 0, hi). -/
def bisectRight (a : List ℚ) (x : ℚ) (lo hi : Nat) : Nat :=
  bisectRightAux a x (hi - lo + 1) lo hi

/-- random.choices(population, weights, k=1)[0] for a population given as an
association list of (item, weight) pairs, with the uniform draw
random.random() passed in as r.  Mirrors the CPython implementation:
cum_weights = list(accumulate(weights)); total = cum_weights[-1]
(IndexError when the population is empty); ValueError when total <= 0;
otherwise population[bisect(cum_weights, r * total, 0, n - 1)]. -/
def choices1 {α : Type} (items : List (α × ℚ)) (r : ℚ) : Except PyError α :=
  match (cumsum (items.map (fun p => p.2))).getLast? with
  | none => .error .indexError
  | some total =>
    if total ≤ 0 then .error .valueError
    else
      match items.get? (bisectRight (cumsum (items.map (fun p => p.2)))
          (r * total) 0 (items.length - 1)) with
      | some p => .ok p.1
      | none => .error .indexError

/-- WeatherObservation (source lines 51-62): a description label; __eq__ and
__hash__ are determined by the description alone, which for this single-field
structure coincides with structural equality. -/
structure WeatherObservation where
  description : String
deriving DecidableEq, Repr

/-- UmbrellaAction (source lines 67-82): a description label; __eq__ and
__hash__ by description, coinciding with structural equality. -/
structure UmbrellaAction where
  description : String
deriving DecidableEq, Repr

/-- UmbrellaAction.all_possibilities (source lines 80-82): a fixed
two-element set, independent of the observation.  Note the second label has
an apostrophe, unlike the module-level constant DONT_TAKE below. -/
def UmbrellaAction.all_possibilities (_obs : WeatherObservation) :
    List UmbrellaAction :=
  [UmbrellaAction.mk "Take Umbrella", UmbrellaAction.mk "Don\x27t Take Umbrella"]

def TAKE : UmbrellaAction := UmbrellaAction.mk "Take Umbrella"

/-- Source line 85: the description is written without an apostrophe,
"Dont Take Umbrella", whereas all_possibilities produces
"Don\x27t Take Umbrella" with one. -/
def DONT_TAKE : UmbrellaAction := UmbrellaAction.mk "Dont Take Umbrella"

/-- SimpleOutcome (source lines 88-104): a description label and a reward.
Its Python __eq__ and __hash__ look only at the description. -/
structure SimpleOutcome where
  description : String
  reward : ℚ
deriving DecidableEq, Repr

/-- SimpleOutcome.__eq__ (source lines 103-104): equality by description
alone, ignoring the reward. -/
def SimpleOutcome.pyEq (a b : SimpleOutcome) : Bool :=
  a.description == b.description

/-- SimpleOutcome.__hash__ (source lines 100-101): hash of the description
alone. -/
def SimpleOutcome.pyHash (o : SimpleOutcome) : UInt64 :=
  hash o.description

/-- SimpleWorld (source lines 107-122).  The constructor (lines 108-111)
stores the two tables unchanged and performs no validation of any kind. -/
structure SimpleWorld where
  obs_distribution : List (WeatherObservation × ℚ)
  outcomes : List ((WeatherObservation × UmbrellaAction) × List (SimpleOutcome × ℚ))
deriving DecidableEq, Repr

/-- The observation_distribution property (source lines 113-115). -/
def SimpleWorld.observation_distribution (w : SimpleWorld) :
    List (WeatherObservation × ℚ) :=
  w.obs_distribution

/-- Python dict key equality for the (observation, action) tuple keys of the
outcome table: tuple equality defers to each components __eq__, which
compares descriptions. -/
def pairPyEq (a b : WeatherObservation × UmbrellaAction) : Bool :=
  a.1.description == b.1.description && a.2.description == b.2.description

/-- SimpleWorld.marginal_outcome_distribution (source lines 117-122):
self._outcomes.get((observation, action), {}) — lookup by dict key equality,
returning the empty mapping when the pair is absent. -/
def SimpleWorld.marginal_outcome_distribution (w : SimpleWorld)
    (observation : WeatherObservation) (action : UmbrellaAction) :
    List (SimpleOutcome × ℚ) :=
  match w.outcomes.find? (fun p => pairPyEq p.1 (observation, action)) with
  | some p => p.2
  | none => []

def CLOUDY : WeatherObservation := WeatherObservation.mk "Cloudy"

def CLEAR : WeatherObservation := WeatherObservation.mk "Clear"

def DRY_BY_UMBRELLA : SimpleOutcome :=
  SimpleOutcome.mk "It rained but I stayed dry" 50

def UNNECESSARY_BURDEN : SimpleOutcome :=
  SimpleOutcome.mk "No rain, I took an unnecessary load" 70

def SOAKED : SimpleOutcome := SimpleOutcome.mk "I got soaked" (-100)

def LIGHT_AS_A_FEATHER : SimpleOutcome :=
  SimpleOutcome.mk "No rain, light as a feather." 100

/-- world1 (source lines 134-154). -/
def world1 : SimpleWorld :=
  SimpleWorld.mk
    [(CLOUDY, 0.6), (CLEAR, 0.4)]
    [((CLOUDY, TAKE), [(DRY_BY_UMBRELLA, 0.3), (UNNECESSARY_BURDEN, 0.7)]),
     ((CLOUDY, DONT_TAKE), [(SOAKED, 0.3), (LIGHT_AS_A_FEATHER, 0.7)]),
     ((CLEAR, TAKE), [(DRY_BY_UMBRELLA, 0.1), (UNNECESSARY_BURDEN, 0.9)]),
     ((CLEAR, DONT_TAKE), [(SOAKED, 0.1), (LIGHT_AS_A_FEATHER, 0.9)])]

/-- world2 (source lines 156-159): its own observation distribution, the
outcome table shared from world1. -/
def world2 : SimpleWorld :=
  SimpleWorld.mk [(CLOUDY, 0.5), (CLEAR, 0.5)] world1.outcomes

/-- world_distribution (source lines 161-164). -/
def world_distribution : List (SimpleWorld × ℚ) :=
  [(world1, 0.5), (world2, 0.5)]

/-- The Streamlit session state as initialized by the block at source lines
198-202: the four keys total_reward, current_world, current_observation and
awaiting_play_again.  awaiting_play_again is False in the AwaitingAction
phase and True in the AwaitingNextRound phase. -/
structure SessionState where
  total_reward : ℚ
  current_world : SimpleWorld
  current_observation : WeatherObservation
  awaiting_play_again : Bool
deriving DecidableEq, Repr

/-- The keys stored in st.session_state by the init block (source lines
198-202); nothing else in the script ever stores an attribute on the session
state. -/
def sessionStateKeys : List String :=
  ["total_reward", "current_world", "current_observation", "awaiting_play_again"]

/-- sample_world (source lines 167-169): random.choices over the unzipped
world_distribution, with r the uniform draw.  Unzipping the pair list and
passing worlds and weights separately to random.choices is the same
computation as choices1 on the pair list itself. -/
def sample_world (r : ℚ) : Except PyError SimpleWorld :=
  choices1 world_distribution r

/-- sample_observation (source lines 172-177): random.choices over the keys
and values of the current worlds observation_distribution, with the current
world passed explicitly instead of read from session state. -/
def sample_observation (w : SimpleWorld) (r : ℚ) :
    Except PyError WeatherObservation :=
  choices1 w.observation_distribution r

/-- sample_outcome (source lines 180-189): marginal_outcome_distribution of
the current world at the current observation and the selected action, then
random.choices over it; session state and the selectbox value become
explicit parameters. -/
def sample_outcome (w : SimpleWorld) (obs : WeatherObservation)
    (action_choice : UmbrellaAction) (r : ℚ) : Except PyError SimpleOutcome :=
  choices1 (w.marginal_outcome_distribution obs action_choice) r

/-- The session-state init block (source lines 198-202), run when
total_reward is not yet a session key: total_reward = 0.0, sample_world(),
sample_observation(), awaiting_play_again = False, with rw and ro the two
uniform draws consumed.  Both samples succeed on the concrete tables of this
script, so the partially-initialized states reachable on a sampling error
are not modelled. -/
def initSession (rw ro : ℚ) : Except PyError SessionState := do
  let w ← sample_world rw
  let obs ← sample_observation w ro
  pure (SessionState.mk 0 w obs false)

/-- The Play Again button handler (source lines 210-214), the start_next_round
transition.  The world re-sampling line is commented out in the source
(line 212).  Line 213 spells the observation re-sampling as a method call on
the session state, st.session_state.sample_observation(); the attribute
lookup searches the stored session keys, sample_observation is not among
them, and Streamlit raises AttributeError before any state is changed.
The handler returns the (unchanged) state paired with the raised error; the
decidably-false branch records what the source text would do next (clear the
awaiting flag) if the lookup succeeded. -/
def playAgainHandler (s : SessionState) : SessionState × Option PyError :=
  if "sample_observation" ∈ sessionStateKeys then
    (SessionState.mk s.total_reward s.current_world s.current_observation false,
     none)
  else
    (s, some .attributeError)

/-- The Submit Action button handler (source lines 230-241), reachable only
in the AwaitingAction phase (it sits in the else branch of the
awaiting_play_again test at line 209): sample an outcome for the selectbox
action, add its reward to total_reward, set awaiting_play_again.  When
sample_outcome raises, the exception propagates before any assignment, so
the state is returned unchanged alongside the error. -/
def submitHandler (s : SessionState) (action_choice : UmbrellaAction)
    (r : ℚ) : SessionState × Option PyError :=
  match sample_outcome s.current_world s.current_observation action_choice r with
  | .error e => (s, some e)
  | .ok outcome =>
      (SessionState.mk (s.total_reward + outcome.reward) s.current_world
        s.current_observation true,
       none)

/-- A SimpleWorld built from an observation table whose single weight is
zero: an input the spec calls malformed, passed to the constructor
unchanged. -/
def bad_world : SimpleWorld := SimpleWorld.mk [(CLOUDY, 0)] []

/-- Modelled from the spec: the validity condition the spec requires World
construction to enforce on an observation distribution — every weight
non-negative and at least one positive.  The source constructor contains no
such check; this predicate exists only to state what the source omits. -/
def specValidObsWeights (d : List (WeatherObservation × ℚ)) : Prop :=
  (∀ p ∈ d, 0 ≤ p.2) ∧ ∃ p ∈ d, 0 < p.2

instance (d : List (WeatherObservation × ℚ)) : Decidable (specValidObsWeights d) := by
  unfold specValidObsWeights
  infer_instance

-- Helper lemmas about the sampler

/-- The fueled binary search never returns an index above hi when lo ≤ hi. -/
theorem bisectRightAux_le (a : List ℚ) (x : ℚ) :
    ∀ (fuel lo hi : Nat), lo ≤ hi → bisectRightAux a x fuel lo hi ≤ hi := by
  intro fuel
  induction fuel with
  | zero =>
    intro lo hi h
    simpa [bisectRightAux] using h
  | succ n ih =>
    intro lo hi h
    simp only [bisectRightAux]
    split
    · rename_i hlt
      split
      · exact le_trans (ih lo ((lo + hi) / 2) (by omega)) (by omega)
      · exact ih ((lo + hi) / 2 + 1) hi (by omega)
    · exact h

/-- Unfolding choices1 once the last cumulative weight is known. -/
theorem choices1_eq_of_getLast {α : Type} (l : List (α × ℚ)) (r t : ℚ)
    (ht : (cumsum (l.map (fun p => p.2))).getLast? = some t) :
    choices1 l r =
      if t ≤ 0 then .error .valueError
      else
        match l.get? (bisectRight (cumsum (l.map (fun p => p.2)))
            (r * t) 0 (l.length - 1)) with
        | some p => .ok p.1
        | none => .error .indexError := by
  unfold choices1
  rw [ht]

/-- When the cumulative weights end in a positive total, choices1 always
returns some member of the population, whatever the random draw. -/
theorem choices1_mem {α : Type} (l : List (α × ℚ)) (r t : ℚ)
    (ht : (cumsum (l.map (fun p => p.2))).getLast? = some t) (hpos : 0 < t) :
    ∃ p : α × ℚ, p ∈ l ∧ choices1 l r = .ok p.1 := by
  have hne : l ≠ [] := by
    intro h
    subst h
    simp [cumsum] at ht
  have hlen : 0 < l.length := List.length_pos.mpr hne
  have hidx : bisectRight (cumsum (l.map (fun p => p.2))) (r * t) 0
      (l.length - 1) < l.length := by
    have hb := bisectRightAux_le (cumsum (l.map (fun p => p.2))) (r * t)
      (l.length - 1 - 0 + 1) 0 (l.length - 1) (Nat.zero_le _)
    unfold bisectRight
    omega
  obtain ⟨p, hp⟩ : ∃ p, l.get? (bisectRight (cumsum (l.map (fun p => p.2)))
      (r * t) 0 (l.length - 1)) = some p := by
    rw [List.get?_eq_get hidx]
    exact ⟨_, rfl⟩
  refine ⟨p, List.get?_mem hp, ?_⟩
  rw [choices1_eq_of_getLast l r t ht, if_neg (not_le.mpr hpos), hp]

-- Claim theorems

/-- C1, counterexample: in world1 the (Cloudy, Take) cell does not have
reward 50 everywhere — with random draw 0.5 the sampled outcome is
UNNECESSARY_BURDEN, whose reward is 70, and that outcome sits in the cell
with weight 0.7. -/
theorem C1_counterexample :
    sample_outcome world1 CLOUDY TAKE 0.5 = .ok UNNECESSARY_BURDEN
    ∧ UNNECESSARY_BURDEN.reward ≠ 50
    ∧ (UNNECESSARY_BURDEN, (0.7 : ℚ)) ∈
        world1.marginal_outcome_distribution CLOUDY TAKE := by
  decide

/-- C1, amended: the (Cloudy, Take) cell of world1 holds exactly the two
outcomes DRY_BY_UMBRELLA (reward 50, weight 0.3) and UNNECESSARY_BURDEN
(reward 70, weight 0.7), so every sampled outcome of submitting Take under
Cloudy adds a reward of 50 or 70, not uniformly 50. -/
theorem C1_amended_rewards (r : ℚ) :
    world1.marginal_outcome_distribution CLOUDY TAKE
        = [(DRY_BY_UMBRELLA, 0.3), (UNNECESSARY_BURDEN, 0.7)]
    ∧ ∃ o, sample_outcome world1 CLOUDY TAKE r = .ok o
        ∧ (o.reward = 50 ∨ o.reward = 70) := by
  have hcell : world1.marginal_outcome_distribution CLOUDY TAKE
      = [(DRY_BY_UMBRELLA, 0.3), (UNNECESSARY_BURDEN, 0.7)] := by decide
  refine ⟨hcell, ?_⟩
  obtain ⟨p, hmem, hok⟩ := choices1_mem
    (world1.marginal_outcome_distribution CLOUDY TAKE) r 1 (by decide) one_pos
  refine ⟨p.1, hok, ?_⟩
  rw [hcell] at hmem
  simp only [List.mem_cons, List.mem_singleton, List.not_mem_nil, or_false] at hmem
  rcases hmem with h | h <;> rw [h] <;> decide

/-- C2, code bug: world1 appears in the world distribution with weight 0.5,
Cloudy has positive weight 0.6 in its observation distribution, and the
action labelled with an apostrophe is one of the two actions
all_possibilities presents; yet its outcome-table cell is empty (the table
key at source line 85 lacks the apostrophe), and sample_outcome on it
crashes with IndexError inside random.choices instead of raising any
declared NoOutcomeDefined condition. -/
theorem C2_code_bug_unreachable_cell :
    (world1, (0.5 : ℚ)) ∈ world_distribution
    ∧ (CLOUDY, (0.6 : ℚ)) ∈ world1.observation_distribution
    ∧ (0 : ℚ) < 0.6
    ∧ UmbrellaAction.mk "Don\x27t Take Umbrella" ∈
        UmbrellaAction.all_possibilities CLOUDY
    ∧ world1.marginal_outcome_distribution CLOUDY
        (UmbrellaAction.mk "Don\x27t Take Umbrella") = []
    ∧ sample_outcome world1 CLOUDY
        (UmbrellaAction.mk "Don\x27t Take Umbrella") 0.5
        = .error PyError.indexError := by
  decide

/-- C3, code bug: the Play Again handler never re-samples the world (the
call is commented out) and its observation re-sampling is an attribute
lookup that fails, so for every session state it raises AttributeError and
leaves the whole state — world, observation, total_reward and the
awaiting_play_again flag — unchanged, instead of re-sampling and
transitioning to AwaitingAction. -/
theorem C3_code_bug_play_again_crashes (s : SessionState) :
    playAgainHandler s = (s, some PyError.attributeError) := by
  simp only [playAgainHandler]
  rw [if_neg (by decide)]

/-- C4: total_reward is 0 after session init; the Play Again handler never
changes it; a successful Submit Action adds exactly the reward of the
outcome sampled in that call; a failed Submit Action leaves the whole state
unchanged. -/
theorem C4_total_reward_invariant :
    (∀ r1 r2 s, initSession r1 r2 = .ok s → s.total_reward = 0)
    ∧ (∀ s, (playAgainHandler s).1.total_reward = s.total_reward)
    ∧ (∀ s a r,
        ((submitHandler s a r).2 = none →
          ∃ o, sample_outcome s.current_world s.current_observation a r = .ok o
            ∧ (submitHandler s a r).1.total_reward = s.total_reward + o.reward)
        ∧ ((submitHandler s a r).2 ≠ none → (submitHandler s a r).1 = s)) := by
  refine ⟨?_, ?_, ?_⟩
  · intro r1 r2 s h
    unfold initSession at h
    cases hw : sample_world r1 with
    | error e =>
      simp only [bind, Except.bind, hw] at h
      exact Except.noConfusion h
    | ok w =>
      cases ho : sample_observation w r2 with
      | error e =>
        simp only [bind, Except.bind, hw, ho] at h
        exact Except.noConfusion h
      | ok obs =>
        simp only [bind, Except.bind, hw, ho, pure, Except.pure,
          Except.ok.injEq] at h
        rw [← h]
  · intro s
    simp only [playAgainHandler]
    rw [if_neg (by decide)]
  · intro s a r
    cases ho : sample_outcome s.current_world s.current_observation a r with
    | error e =>
      constructor
      · intro hnone
        simp [submitHandler, ho] at hnone
      · intro _
        simp [submitHandler, ho]
    | ok o =>
      constructor
      · intro _
        refine ⟨o, rfl, ?_⟩
        simp [submitHandler, ho]
      · intro hne
        simp [submitHandler, ho] at hne

/-- C4 witness: a concrete session init with both uniform draws 1/4 selects
world1 and Cloudy with total_reward 0. -/
theorem C4_witness :
    initSession (1/4) (1/4) = .ok (SessionState.mk 0 world1 CLOUDY false)
    ∧ (SessionState.mk 0 world1 CLOUDY false).total_reward = 0 := by
  have h : initSession (1/4) (1/4)
      = .ok (SessionState.mk 0 world1 CLOUDY false) := by decide
  exact ⟨h, C4_total_reward_invariant.1 (1/4) (1/4) _ h⟩

/-- C5, code bug: on an empty weighted mapping the sampler raises IndexError
and on an all-zero one it raises ValueError — the bare CPython exceptions
from random.choices, whatever the random draw; the source declares and
raises no EmptyDistribution error anywhere. -/
theorem C5_code_bug_crash_kind (r : ℚ) :
    choices1 ([] : List (SimpleOutcome × ℚ)) r = .error PyError.indexError
    ∧ choices1 [(DRY_BY_UMBRELLA, (0 : ℚ)), (UNNECESSARY_BURDEN, 0)] r
        = .error PyError.valueError :=
  ⟨rfl, rfl⟩

/-- C6, code bug: the SimpleWorld constructor stores an all-zero observation
distribution unchanged — it performs no validation and has no error channel,
so no InvalidWorldDefinition can be raised at construction time — and the
failure only surfaces later, as a ValueError when sampling an observation
from the malformed world. -/
theorem C6_code_bug_no_construction_validation :
    bad_world.observation_distribution = [(CLOUDY, 0)]
    ∧ ¬ specValidObsWeights bad_world.observation_distribution
    ∧ sample_observation bad_world 0.5 = .error PyError.valueError := by
  decide

/-- C7, code bug: DONT_TAKE (source line 85, no apostrophe) is not a member
of all_possibilities Cloudy, yet the Submit Action handler performs no
legality check: submitting it from a fresh Cloudy state succeeds, adds the
sampled reward of 100 to total_reward, and flips the phase flag — instead of
failing with InvalidAction and leaving reward and phase unchanged. -/
theorem C7_code_bug_no_invalid_action_check :
    DONT_TAKE ∉ UmbrellaAction.all_possibilities CLOUDY
    ∧ submitHandler (SessionState.mk 0 world1 CLOUDY false) DONT_TAKE 0.5
        = (SessionState.mk 100 world1 CLOUDY true, none) := by
  decide

/-- C8: for any SimpleWorld, when the (observation, action) key is absent
from the outcome table, marginal_outcome_distribution returns the empty
mapping — the dict .get default — without raising or substituting anything
else. -/
theorem C8_absent_pair_yields_empty (w : SimpleWorld)
    (obs : WeatherObservation) (act : UmbrellaAction)
    (h : w.outcomes.find? (fun p => pairPyEq p.1 (obs, act)) = none) :
    w.marginal_outcome_distribution obs act = [] := by
  simp [SimpleWorld.marginal_outcome_distribution, h]

/-- C8 witness: the apostrophe-labelled action is absent from the world1
table under Cloudy, and the marginal distribution there is empty. -/
theorem C8_witness :
    world1.outcomes.find? (fun p => pairPyEq p.1
        (CLOUDY, UmbrellaAction.mk "Don\x27t Take Umbrella")) = none
    ∧ world1.marginal_outcome_distribution CLOUDY
        (UmbrellaAction.mk "Don\x27t Take Umbrella") = [] := by
  have h : world1.outcomes.find? (fun p => pairPyEq p.1
      (CLOUDY, UmbrellaAction.mk "Don\x27t Take Umbrella")) = none := by decide
  exact ⟨h, C8_absent_pair_yields_empty world1 CLOUDY _ h⟩

/-- C9: SimpleOutcome equality is the equality of descriptions, rewards
ignored, and equal descriptions give equal hashes. -/
theorem C9_outcome_eq_by_label (a b : SimpleOutcome) :
    (SimpleOutcome.pyEq a b = true ↔ a.description = b.description)
    ∧ (a.description = b.description →
        SimpleOutcome.pyHash a = SimpleOutcome.pyHash b) := by
  constructor
  · simp [SimpleOutcome.pyEq]
  · intro h
    simp [SimpleOutcome.pyHash, h]

/-- C9 witness: two outcomes with the same label and different rewards are
equal and hash alike. -/
theorem C9_witness :
    SimpleOutcome.pyEq (SimpleOutcome.mk "It rained but I stayed dry" 50)
        (SimpleOutcome.mk "It rained but I stayed dry" 999) = true
    ∧ SimpleOutcome.pyHash (SimpleOutcome.mk "It rained but I stayed dry" 50)
        = SimpleOutcome.pyHash
            (SimpleOutcome.mk "It rained but I stayed dry" 999) :=
  ⟨(C9_outcome_eq_by_label (SimpleOutcome.mk "It rained but I stayed dry" 50)
      (SimpleOutcome.mk "It rained but I stayed dry" 999)).1.mpr rfl,
   (C9_outcome_eq_by_label (SimpleOutcome.mk "It rained but I stayed dry" 50)
      (SimpleOutcome.mk "It rained but I stayed dry" 999)).2 rfl⟩

/-- C10: world2 shares the outcome table of world1, so the two marginal
outcome distributions agree on every (observation, action) pair, and the
worlds differ exactly in their observation distributions: Cloudy 0.6 and
Clear 0.4 for world1, Cloudy 0.5 and Clear 0.5 for world2. -/
theorem C10_worlds_share_outcome_tables :
    (∀ obs act, world2.marginal_outcome_distribution obs act
        = world1.marginal_outcome_distribution obs act)
    ∧ world1.observation_distribution = [(CLOUDY, 0.6), (CLEAR, 0.4)]
    ∧ world2.observation_distribution = [(CLOUDY, 0.5), (CLEAR, 0.5)]
    ∧ world1.observation_distribution ≠ world2.observation_distribution := by
  refine ⟨fun obs act => rfl, by decide, by decide, by decide⟩

end TwoTones
